import Mathlib

/-!
Verification development for the Hamilton STAR-class liquid-handling
protocol layer described by the repository's specification.  The only
file under version control here is the tutorial notebook
`docs/user_guide/00_liquid-handling/hamilton-star/basic.ipynb`, whose
logged wire traffic fixes the concrete command/response grammar; the
protocol layer itself (codec, coordinate resolver, channel tracker,
session adapter) is modelled from the specification and validated
against those logged strings.

Logical volumes and coordinates are represented as rationals (the
Python floats of the notebook are all decimal values exactly
representable as rationals), and device sub-units as integers.
-/

namespace StarProto

/-! ### Numeric sub-unit conversion (round-half-up) -/

/-- Round to the nearest integer, halves rounding up (the spec's
round-half-up policy for logical-value → sub-unit conversion). -/
def roundHalfUp (q : ℚ) : ℤ := ⌊q + 1 / 2⌋

/-- Convert a logical value (mm or µL) to device sub-units (tenths). -/
def tenths (q : ℚ) : ℤ := roundHalfUp (q * 10)

/-- Convert device sub-units (tenths) back to a logical value. -/
def fromTenths (n : ℤ) : ℚ := (n : ℚ) / 10

/-! ### Fixed-width zero-padded numeric tokens -/

/-- The ASCII digit character for `n % 10`. -/
def digitChar (n : Nat) : Char := Char.ofNat (48 + n % 10)

/-- The `w` least-significant decimal digits of `n`, most significant
first, zero-padded to exactly width `w`. -/
def natDigits : Nat → Nat → List Char
  | 0, _ => []
  | w + 1, n => natDigits w (n / 10) ++ [digitChar n]

/-- Fixed-width zero-padded decimal token for `n` (keeps the last `w`
digits, i.e. the value modulo `10 ^ w`). -/
def padNum (w : Nat) (n : Nat) : String := String.mk (natDigits w n)

/-- Width-5 coordinate token in tenths of mm (x-positions, `xp`). -/
def xTok (q : ℚ) : String := padNum 5 (Int.toNat (tenths q))

/-- Width-4 coordinate token in tenths of mm (y-positions, `yp`). -/
def yTok (q : ℚ) : String := padNum 4 (Int.toNat (tenths q))

/-! ### Volume calibration curve -/

/-- Linear interpolation between the two calibration points `p` and
`q`, evaluated at `v`. -/
def interpSeg (p q : ℚ × ℚ) (v : ℚ) : ℚ :=
  p.2 + (v - p.1) * (q.2 - p.2) / (q.1 - p.1)

/-- Piecewise-linear evaluation over a chain of calibration points:
`p`, `q` are the current segment's endpoints, the list holds the
remaining points; values beyond the last point extend its segment. -/
def calibAux (p q : ℚ × ℚ) : List (ℚ × ℚ) → ℚ → ℚ
  | [], v => interpSeg p q v
  | r :: rest, v => if v ≤ q.1 then interpSeg p q v else calibAux q r rest v

/-- Modelled from the spec: the STAR backend's liquid-class volume
correction function is not under version control here; the spec fixes
its values through the scenario tokens `01072, 00551, 02110` for
100.0, 50.0 and 200.0 µL ("a fixed calibration curve").  Modelled as
the piecewise-linear curve through (0,0), (50,55.1), (100,107.2),
(200,211.0). -/
def calib (v : ℚ) : ℚ :=
  calibAux (0, 0) (50, 551 / 10) [(100, 1072 / 10), (200, 211)] v

/-- Width-5 per-channel volume token: calibrated volume in tenths of
µL, zero-padded to five digits (the `av`/`dv` token format of the
logged commands). -/
def volumeToken (v : ℚ) : String := padNum 5 (Int.toNat (tenths (calib v)))

/-! ### Coordinate resolver -/

/-- An absolute or relative position on the deck, in mm. -/
structure Coordinate where
  x : ℚ
  y : ℚ
  z : ℚ
deriving DecidableEq

/-- Componentwise translation of coordinates. -/
def addC (a b : Coordinate) : Coordinate := ⟨a.x + b.x, a.y + b.y, a.z + b.z⟩

/-- The fixed rail pitch of the deck, 22.5 mm: adjacent rails are this
far apart along x (rails 3 and 15 of the notebook sit at x = 145.0 and
x = 415.0). -/
def railPitch : ℚ := 45 / 2

/-- Modelled from the spec: the deck's rail→mm mapping is not under
version control here; the spec calls it "a fixed device-specific
linear mapping (e.g., rail 3 ⇒ x = 145.0 mm)", and the notebook's deck
summary pins rails 3 and 15 to x = 145.0 and x = 415.0, giving
x = 100 + 22.5·(rail − 1). -/
def railToX (r : ℤ) : ℚ := 100 + railPitch * ((r : ℚ) - 1)

/-- A resource sitting in a carrier slot: its name and its local
offset relative to the carrier's origin. -/
structure Slotted where
  sname : String
  off : Coordinate
deriving DecidableEq

/-- The absolute position of a carrier assigned to a rail (the y and z
of the carrier's origin do not depend on the rail). -/
def carrierPos (rail : ℤ) (cy cz : ℚ) : Coordinate := ⟨railToX rail, cy, cz⟩

/-- Absolute coordinates of all children of a carrier assigned to a
rail: each child's local offset added to the carrier's position. -/
def carrierChildrenAbs (rail : ℤ) (cy cz : ℚ) (children : List Slotted) :
    List (String × Coordinate) :=
  children.map (fun c => (c.sname, addC (carrierPos rail cy cz) c.off))

/-- Number of rows of a 96-position rack or plate (rows A–H). -/
def numRows : Nat := 8

/-- Column-major linear index of a (row, column) position: all of
column 1 (A1, B1, …, H1) precedes column 2, matching the device's
column-then-row addressing convention. -/
def wellIndex (rc : Nat × Nat) : Nat := rc.2 * numRows + rc.1

/-- Inverse of `wellIndex`: the (row, column) of a linear index. -/
def indexWell (i : Nat) : Nat × Nat := (i % numRows, i / numRows)

/-- The range separator character. -/
def colonChar : Char := ':'

/-- The error-code separator character of the `er` field. -/
def slashChar : Char := '/'

/-- The numeric value of an ASCII digit character, `none` for
non-digits. -/
def digitVal (c : Char) : Option Nat :=
  if 48 ≤ c.toNat ∧ c.toNat ≤ 57 then some (c.toNat - 48) else none

/-- Accumulator loop of `charsToNat`. -/
def charsToNatAux : List Char → Nat → Option Nat
  | [], acc => some acc
  | c :: cs, acc =>
    match digitVal c with
    | some d => charsToNatAux cs (acc * 10 + d)
    | none => none

/-- Parse a non-empty all-digit character list as a decimal number. -/
def charsToNat : List Char → Option Nat
  | [] => none
  | c :: cs => charsToNatAux (c :: cs) 0

/-- Accumulator loop of `splitChar`. -/
def splitCharAux (sep : Char) : List Char → List Char → List (List Char)
  | [], acc => [acc.reverse]
  | c :: cs, acc =>
    if c == sep then acc.reverse :: splitCharAux sep cs []
    else splitCharAux sep cs (c :: acc)

/-- Split a character list at every occurrence of `sep`. -/
def splitChar (sep : Char) (l : List Char) : List (List Char) := splitCharAux sep l []

/-- Parse a well label such as "A1" into 0-based (row, column);
`none` on malformed labels (row letter outside A–H, column outside
1–12). -/
def parseWellChars (l : List Char) : Option (Nat × Nat) :=
  match l with
  | [] => none
  | c :: rest =>
    let rowN := c.toNat
    if 65 ≤ rowN ∧ rowN < 65 + numRows then
      match charsToNat rest with
      | some col => if 1 ≤ col ∧ col ≤ 12 then some (rowN - 65, col - 1) else none
      | none => none
    else none

/-- Expand a range such as "A1:C1" into the ordered list of its
(row, column) positions, walking the column-major index from the first
label to the second; a bare label yields a singleton; `none` on
malformed syntax or a backwards range. -/
def expandRange (s : String) : Option (List (Nat × Nat)) :=
  match splitChar colonChar s.data with
  | [a, b] =>
    match parseWellChars a, parseWellChars b with
    | some p, some q =>
      let i := wellIndex p
      let j := wellIndex q
      if i ≤ j then some ((List.range (j - i + 1)).map (fun k => indexWell (i + k)))
      else none
    | _, _ => none
  | [a] => (parseWellChars a).map (fun p => [p])
  | _ => none

/-- The 9 mm pitch between adjacent wells/tip positions of a
96-position rack. -/
def sitePitch : ℚ := 9

/-- Absolute coordinate of the site at (row, column) within a resource
whose A1 position sits at `origin`: columns grow along +x, rows along
−y (matching the notebook's logged `xp`/`yp` values). -/
def siteCoord (origin : Coordinate) (rc : Nat × Nat) : Coordinate :=
  ⟨origin.x + sitePitch * rc.2, origin.y - sitePitch * rc.1, origin.z⟩

/-- Resolve a range within a resource to the ordered list of absolute
site coordinates. -/
def resolveSites (origin : Coordinate) (range : String) : Option (List Coordinate) :=
  (expandRange range).map (fun l => l.map (siteCoord origin))

/-- A1 position of `plate_01` per the notebook's deck summary and the
logged `xp`/`yp` values: (433.0, 146.0, 187.15). -/
def plateOrigin : Coordinate := ⟨433, 146, 3743 / 20⟩

/-- A1 position of `tips_01` per the notebook's deck summary and the
logged `xp`/`yp` values: (162.9, 145.8, 131.45). -/
def tipRackOrigin : Coordinate := ⟨1629 / 10, 729 / 5, 2629 / 20⟩

/-! ### Errors -/

/-- The error taxonomy of the resolver and tracker (spec §7). -/
inductive OpErr where
  | NotFoundError
  | AddressError
  | UnassignedResourceError
  | ChannelConflictError
  | CapacityError
  | InsufficientVolumeError
deriving DecidableEq

/-! ### Channel state tracker -/

/-- Modelled from the spec: the channel state machine is not under
version control here; spec §3 gives the state space
`{empty | tip_attached | tip_attached_with_liquid(volume)}`. -/
inductive ChannelState where
  | empty
  | tip_attached
  | tip_attached_with_liquid (v : ℚ)
deriving DecidableEq

/-- The liquid volume a channel currently holds (zero without
liquid). -/
def heldVolume : ChannelState → ℚ
  | ChannelState.empty => 0
  | ChannelState.tip_attached => 0
  | ChannelState.tip_attached_with_liquid v => v

/-- Rated capacity of the notebook's high-volume tips, in µL. -/
def tipCapacity : ℚ := 1000

/-- Modelled from the spec: pick-up on one channel — only `empty`
channels may be selected, otherwise `ChannelConflictError`. -/
def pickUpCh : ChannelState → Except OpErr ChannelState
  | ChannelState.empty => Except.ok ChannelState.tip_attached
  | _ => Except.error OpErr.ChannelConflictError

/-- Modelled from the spec: aspirate on one channel — only channels
with a tip may aspirate; the volume must be ≥ 0 and keep the total
within the tip's rated capacity, otherwise `CapacityError`. -/
def aspirateCh (v : ℚ) : ChannelState → Except OpErr ChannelState
  | ChannelState.empty => Except.error OpErr.ChannelConflictError
  | ChannelState.tip_attached =>
    if 0 ≤ v ∧ v ≤ tipCapacity then Except.ok (ChannelState.tip_attached_with_liquid v)
    else Except.error OpErr.CapacityError
  | ChannelState.tip_attached_with_liquid w =>
    if 0 ≤ v ∧ w + v ≤ tipCapacity then
      Except.ok (ChannelState.tip_attached_with_liquid (w + v))
    else Except.error OpErr.CapacityError

/-- Modelled from the spec: dispense on one channel — only channels
holding liquid may dispense and the dispensed volume must not exceed
the held volume, otherwise `InsufficientVolumeError`; the held volume
decreases by the dispensed amount. -/
def dispenseCh (v : ℚ) : ChannelState → Except OpErr ChannelState
  | ChannelState.tip_attached_with_liquid w =>
    if 0 ≤ v ∧ v ≤ w then Except.ok (ChannelState.tip_attached_with_liquid (w - v))
    else Except.error OpErr.InsufficientVolumeError
  | _ => Except.error OpErr.InsufficientVolumeError

/-- Modelled from the spec: drop on one channel — only channels with a
tip; the channel resets to `empty`, discarding any liquid tracking. -/
def dropCh : ChannelState → Except OpErr ChannelState
  | ChannelState.empty => Except.error OpErr.ChannelConflictError
  | _ => Except.ok ChannelState.empty

/-- Apply a per-channel action to the first `vs.length` channels,
failing as a whole if any single channel fails (a request for more
channels than exist is a conflict). -/
def zipExcept (f : ℚ → ChannelState → Except OpErr ChannelState) :
    List ℚ → List ChannelState → Except OpErr (List ChannelState)
  | [], ss => Except.ok ss
  | _ :: _, [] => Except.error OpErr.ChannelConflictError
  | v :: vs, s :: ss =>
    match f v s with
    | Except.error e => Except.error e
    | Except.ok s' =>
      match zipExcept f vs ss with
      | Except.error e => Except.error e
      | Except.ok ss' => Except.ok (s' :: ss')

/-! ### Command codec -/

/-- The device's fixed per-channel slot frame observed in the logged
commands: `tm`, `xp`, `yp` always carry 4 tokens. -/
def slotFrame : Nat := 4

/-- The channel-selection mask field `tm`: one "1" per active channel,
padded with "0" to the fixed slot frame. -/
def tmTokens (active : Nat) : List String :=
  (List.range slotFrame).map (fun i => if i < active then "1" else "0")

/-- Pad a per-channel token list to the fixed slot frame with the
all-zero sentinel of the same field width. -/
def padTokens (w : Nat) (toks : List String) : List String :=
  toks ++ List.replicate (slotFrame - toks.length) (padNum w 0)

/-- A structured wire command: module code, command code, sequence id,
and the ordered field list (tag, per-channel tokens).  Modelled from
the spec restricted to the header and the per-channel fields the spec
discusses (`tm`, `xp`, `yp`, `av`, `dv`, speeds); the remaining
technical fields of the logged commands are omitted. -/
structure Command where
  module : String
  cmd : String
  idN : Nat
  fields : List (String × List String)
deriving DecidableEq

/-- The 4-digit zero-padded sequence-id token (wraps mod 10000). -/
def idToken (n : Nat) : String := padNum 4 (n % 10000)

/-- The command header as sent on the wire:
module + command + "id" + 4-digit id. -/
def Command.header (c : Command) : String :=
  c.module ++ c.cmd ++ ("id") ++ idToken c.idN

/-- The token list of the field with the given tag (empty if the
command has no such field). -/
def Command.fieldTokens (c : Command) (tag : String) : List String :=
  match c.fields.find? (fun f => f.1 == tag) with
  | some f => f.2
  | none => []

/-- Modelled from the spec: the tip pick-up (`TP`) encoder is not
under version control here; per the logged `C0TPid0005…`, its
channel-position fields `xp`/`yp` are zero-padded to the slot frame
and `tm` selects the active channels. -/
def encodeTipPickUp (idN : Nat) (sites : List Coordinate) : Command :=
  ⟨"C0", "TP", idN,
    [("xp", padTokens 5 (sites.map (fun c => xTok c.x))),
     ("yp", padTokens 4 (sites.map (fun c => yTok c.y))),
     ("tm", tmTokens sites.length)]⟩

/-- Modelled from the spec: the aspirate (`AS`) encoder is not under
version control here; per the logged `C0ASid0006…`, `tm`/`xp`/`yp`
are padded to the slot frame while `av` (calibrated volume) and `as`
(speed) carry one token per active channel. -/
def encodeAspirate (idN : Nat) (sites : List Coordinate) (vols : List ℚ) : Command :=
  ⟨"C0", "AS", idN,
    [("at", ["0"]),
     ("tm", tmTokens sites.length),
     ("xp", padTokens 5 (sites.map (fun c => xTok c.x))),
     ("yp", padTokens 4 (sites.map (fun c => yTok c.y))),
     ("av", vols.map volumeToken),
     ("as", vols.map (fun _ => "1000"))]⟩

/-- Modelled from the spec: the dispense (`DS`) encoder is not under
version control here; per the logged `C0DSid0007…`, `tm`/`xp`/`yp`
are padded to the slot frame while `dm`, `dv` (calibrated volume) and
`ds` (speed) carry one token per active channel. -/
def encodeDispense (idN : Nat) (sites : List Coordinate) (vols : List ℚ) : Command :=
  ⟨"C0", "DS", idN,
    [("dm", vols.map (fun _ => "2")),
     ("tm", tmTokens sites.length),
     ("xp", padTokens 5 (sites.map (fun c => xTok c.x))),
     ("yp", padTokens 4 (sites.map (fun c => yTok c.y))),
     ("dv", vols.map volumeToken),
     ("ds", vols.map (fun _ => "1200"))]⟩

/-! ### Response decoding -/

/-- A decoded device response: the echoed header, the two-digit error
codes of the `er` field, and the remaining sensor-field text. -/
structure Response where
  echo : String
  erCodes : List String
  rest : String
deriving DecidableEq

/-- Whether a character is an ASCII digit. -/
def isDigitCh (c : Char) : Bool := 48 ≤ c.toNat ∧ c.toNat ≤ 57

/-- Split a character list at the end of the `er` value: digits and
"/" belong to the error field, the first other character starts the
sensor fields. -/
def erSpan : List Char → List Char × List Char
  | [] => ([], [])
  | c :: cs =>
    if isDigitCh c ∨ c == slashChar then
      let p := erSpan cs
      (c :: p.1, p.2)
    else ([], c :: cs)

/-- Modelled from the spec: the response decoder is not under version
control here; per spec §4.3 a response is the echoed
module+command+id (10 characters) followed by the `er` field ("/"
separated two-digit codes) and optional sensor fields. -/
def decode (s : String) : Option Response :=
  let l := s.data
  if l.length < 12 then none
  else if String.mk ((l.drop 10).take 2) == "er" then
    let p := erSpan (l.drop 12)
    some ⟨String.mk (l.take 10), (splitChar slashChar p.1).map (fun cs => String.mk cs),
      String.mk p.2⟩
  else none

/-- Outcome of correlating a (possibly missing) raw response with the
outstanding command's header. -/
inductive ProtoResult where
  | ok (r : Response)
  | ProtocolError
deriving DecidableEq

/-- Modelled from the spec: response correlation is not under version
control here; per spec §4.3, a missing response (timeout) or one whose
echoed id does not match the outstanding command is a `ProtocolError`,
never silently dropped. -/
def correlate (sentHeader : String) (resp : Option String) : ProtoResult :=
  match resp with
  | none => ProtoResult.ProtocolError
  | some s =>
    match decode s with
    | none => ProtoResult.ProtocolError
    | some r =>
      if r.echo == sentHeader then ProtoResult.ok r else ProtoResult.ProtocolError

/-! ### Session -/

/-- A logical operation request addressed by range (spec §6). -/
inductive Op where
  | pickUp (range : String)
  | aspirate (range : String) (vols : List ℚ)
  | dispense (range : String) (vols : List ℚ)
  | drop (range : String)

/-- One session's in-memory state: the origin of the addressed
resource, the tracked channel states, the log of sent command headers,
and the next sequence id. -/
structure Session where
  origin : Coordinate
  channels : List ChannelState
  sentLog : List String
  nextId : Nat
deriving DecidableEq

/-- Modelled from the spec: pure validation of an operation (resolver
plus tracker), producing the updated channel states and the encoded
command; performed before anything is sent. -/
def validateOp (s : Session) (op : Op) : Except OpErr (List ChannelState × Command) :=
  match op with
  | Op.pickUp rng =>
    match resolveSites s.origin rng with
    | none => Except.error OpErr.AddressError
    | some sites =>
      match zipExcept (fun _ st => pickUpCh st) (sites.map (fun _ => 0)) s.channels with
      | Except.error e => Except.error e
      | Except.ok chs => Except.ok (chs, encodeTipPickUp s.nextId sites)
  | Op.aspirate rng vols =>
    match resolveSites s.origin rng with
    | none => Except.error OpErr.AddressError
    | some sites =>
      if sites.length = vols.length then
        match zipExcept aspirateCh vols s.channels with
        | Except.error e => Except.error e
        | Except.ok chs => Except.ok (chs, encodeAspirate s.nextId sites vols)
      else Except.error OpErr.AddressError
  | Op.dispense rng vols =>
    match resolveSites s.origin rng with
    | none => Except.error OpErr.AddressError
    | some sites =>
      if sites.length = vols.length then
        match zipExcept dispenseCh vols s.channels with
        | Except.error e => Except.error e
        | Except.ok chs => Except.ok (chs, encodeDispense s.nextId sites vols)
      else Except.error OpErr.AddressError
  | Op.drop rng =>
    match resolveSites s.origin rng with
    | none => Except.error OpErr.AddressError
    | some sites =>
      match zipExcept (fun _ st => dropCh st) (sites.map (fun _ => 0)) s.channels with
      | Except.error e => Except.error e
      | Except.ok chs => Except.ok (chs, encodeTipPickUp s.nextId sites)

/-- Modelled from the spec: run one operation — validate first; only
on success is the command's wire header appended to the sent log, the
channel states committed and the sequence id advanced.  On a
validation failure the session is returned unchanged together with
the error. -/
def runOp (s : Session) (op : Op) : Session × Option OpErr :=
  match validateOp s op with
  | Except.error e => (s, some e)
  | Except.ok (chs, cmd) =>
    (⟨s.origin, chs, s.sentLog ++ [cmd.header], s.nextId + 1⟩, none)

/-- Modelled from the spec: the session-scoped sequence ids of a run
of `count` consecutively issued commands starting at raw id `n0`. -/
def sessionIds (n0 count : Nat) : List Nat :=
  (List.range count).map (fun i => n0 + i)

/-! ### Logged wire strings of the notebook session -/

/-- Logged response to the aspirate command `C0ASid0006` (3 active
channels). -/
def respAS : String := "C0ASid0006er00/00"

/-- Logged response to the tip-drop command `C0TRid0010`, with the
8-slot `kz`/`vz` sensor arrays. -/
def respTR : String :=
  "C0TRid0010er00/00kz381 356 365 000 000 000 000 000vz303 360 368 000 000 000 000 000"

/-! ### Value lemmas for the notebook scenario -/

/-- The calibrated sub-unit value of 100.0 µL. -/
theorem tenths_calib_100 : tenths (calib 100) = 1072 := by
  norm_num [tenths, roundHalfUp, calib, calibAux, interpSeg]

/-- The calibrated sub-unit value of 50.0 µL. -/
theorem tenths_calib_50 : tenths (calib 50) = 551 := by
  norm_num [tenths, roundHalfUp, calib, calibAux, interpSeg]

/-- The calibrated sub-unit value of 200.0 µL. -/
theorem tenths_calib_200 : tenths (calib 200) = 2110 := by
  norm_num [tenths, roundHalfUp, calib, calibAux, interpSeg]

/-- The `av`/`dv` token of 100.0 µL. -/
theorem volumeToken_100 : volumeToken 100 = "01072" := by
  simp only [volumeToken, tenths_calib_100]; decide

/-- The `av`/`dv` token of 50.0 µL. -/
theorem volumeToken_50 : volumeToken 50 = "00551" := by
  simp only [volumeToken, tenths_calib_50]; decide

/-- The `av`/`dv` token of 200.0 µL. -/
theorem volumeToken_200 : volumeToken 200 = "02110" := by
  simp only [volumeToken, tenths_calib_200]; decide

/-- Range expansion of "A1:C1". -/
theorem expand_A1C1 : expandRange ("A1:C1") = some [(0, 0), (1, 0), (2, 0)] := by decide

/-- Range expansion of "D1:F1". -/
theorem expand_D1F1 : expandRange ("D1:F1") = some [(3, 0), (4, 0), (5, 0)] := by decide

/-- The resolved sites of "A1:C1" on the notebook's plate, in range
order. -/
def aSites : List Coordinate :=
  [siteCoord plateOrigin (0, 0), siteCoord plateOrigin (1, 0), siteCoord plateOrigin (2, 0)]

/-- The resolved sites of "D1:F1" on the notebook's plate, in range
order. -/
def dSites : List Coordinate :=
  [siteCoord plateOrigin (3, 0), siteCoord plateOrigin (4, 0), siteCoord plateOrigin (5, 0)]

/-- Site resolution of "A1:C1" on the notebook's plate. -/
theorem resolve_plate_A1C1 : resolveSites plateOrigin ("A1:C1") = some aSites := by
  simp [resolveSites, expand_A1C1, aSites]

/-- Site resolution of "D1:F1" on the notebook's plate. -/
theorem resolve_plate_D1F1 : resolveSites plateOrigin ("D1:F1") = some dSites := by
  simp [resolveSites, expand_D1F1, dSites]

/-- The channel bank right after the notebook's 3-channel tip pick-up:
channels 1–3 carry a tip, channel 4 is empty. -/
def chanInit : List ChannelState :=
  [ChannelState.tip_attached, ChannelState.tip_attached, ChannelState.tip_attached,
   ChannelState.empty]

/-- The session state right before the notebook's aspirate command
`C0ASid0006`. -/
def sess0 : Session := ⟨plateOrigin, chanInit, [], 6⟩

/-- C1: for 'aspirate volumes [100.0, 50.0, 200.0] µL at sites A1:C1',
encode produces an aspirate command whose per-channel volume field
`av` contains exactly the calibration-curve sub-unit tokens
01072, 00551, 02110 in channel order, and after dispensing the same
volumes (at D1:F1) every involved channel's tracked residual volume is
zero. -/
theorem C1_aspirate_tokens_and_zero_residual :
    (validateOp sess0 (Op.aspirate ("A1:C1") [100, 50, 200])).map
        (fun p => p.2.fieldTokens ("av"))
      = Except.ok [("01072"), ("00551"), ("02110")]
    ∧ (runOp sess0 (Op.aspirate ("A1:C1") [100, 50, 200])).2 = none
    ∧ (runOp (runOp sess0 (Op.aspirate ("A1:C1") [100, 50, 200])).1
        (Op.dispense ("D1:F1") [100, 50, 200])).2 = none
    ∧ ((runOp (runOp sess0 (Op.aspirate ("A1:C1") [100, 50, 200])).1
        (Op.dispense ("D1:F1") [100, 50, 200])).1.channels.map heldVolume).take 3
      = [0, 0, 0] := by
  have hval : validateOp sess0 (Op.aspirate ("A1:C1") [100, 50, 200])
      = Except.ok
        ([ChannelState.tip_attached_with_liquid 100,
          ChannelState.tip_attached_with_liquid 50,
          ChannelState.tip_attached_with_liquid 200, ChannelState.empty],
         encodeAspirate 6 aSites [100, 50, 200]) := by
    norm_num [validateOp, sess0, chanInit, resolve_plate_A1C1, zipExcept, aspirateCh,
      tipCapacity, aSites]
  have hrun1 : runOp sess0 (Op.aspirate ("A1:C1") [100, 50, 200])
      = (⟨plateOrigin,
          [ChannelState.tip_attached_with_liquid 100,
           ChannelState.tip_attached_with_liquid 50,
           ChannelState.tip_attached_with_liquid 200, ChannelState.empty],
          [(encodeAspirate 6 aSites [100, 50, 200]).header], 7⟩, none) := by
    simp only [runOp, hval]
    simp [sess0]
  have hval2 : validateOp
      (⟨plateOrigin,
        [ChannelState.tip_attached_with_liquid 100,
         ChannelState.tip_attached_with_liquid 50,
         ChannelState.tip_attached_with_liquid 200, ChannelState.empty],
        [(encodeAspirate 6 aSites [100, 50, 200]).header], 7⟩ : Session)
      (Op.dispense ("D1:F1") [100, 50, 200])
      = Except.ok
        ([ChannelState.tip_attached_with_liquid 0,
          ChannelState.tip_attached_with_liquid 0,
          ChannelState.tip_attached_with_liquid 0, ChannelState.empty],
         encodeDispense 7 dSites [100, 50, 200]) := by
    norm_num [validateOp, resolve_plate_D1F1, zipExcept, dispenseCh, dSites]
  refine ⟨?_, ?_, ?_, ?_⟩
  · rw [hval]
    simp [Except.map, encodeAspirate, Command.fieldTokens, volumeToken_100, volumeToken_50,
      volumeToken_200]
  · rw [hrun1]
  · rw [hrun1]
    simp only [runOp, hval2]
  · rw [hrun1]
    simp only [runOp, hval2]
    simp [heldVolume]

/-- The plain (uncalibrated) sub-unit value of 100.0 µL. -/
theorem tenths_100 : tenths 100 = 1000 := by
  norm_num [tenths, roundHalfUp]

/-- C2 counterexample: in the encoded aspirate command the per-channel
volume token for 100.0 µL is "01072", not the plain-tenths "01000" the
claim asserts (the `av` field goes through the calibration curve). -/
theorem C2_counterexample_av_not_plain_tenths :
    (encodeAspirate 6 aSites [100]).fieldTokens ("av") = [("01072")]
    ∧ [("01072")] ≠ [("01000")]
    ∧ padNum 5 (Int.toNat (tenths 100)) = "01000" := by
  refine ⟨?_, by decide, ?_⟩
  · simp [encodeAspirate, Command.fieldTokens, volumeToken_100]
  · simp only [tenths_100]
    decide

/-- C2 amended: converting a logical value to device sub-units (tenths,
round-half-up) and back recovers the original value for every value on
the tenth grid; the per-channel volume tokens of aspirate/dispense
commands additionally pass through the fixed calibration curve, so
100.0 µL encodes as "01072" (its plain-tenths sub-unit value being
1000). -/
theorem C2_amended_subunit_round_trip :
    (∀ k : ℤ, tenths (fromTenths k) = k)
    ∧ (∀ k : ℤ, fromTenths (tenths (fromTenths k)) = fromTenths k)
    ∧ tenths 100 = 1000
    ∧ volumeToken 100 = "01072" := by
  have h : ∀ k : ℤ, tenths (fromTenths k) = k := by
    intro k
    have h10 : ((k : ℚ) / 10) * 10 = (k : ℚ) := div_mul_cancel₀ _ (by norm_num)
    rw [tenths, fromTenths, roundHalfUp, h10, Int.floor_int_add]
    norm_num
  exact ⟨h, fun k => by rw [h], tenths_100, volumeToken_100⟩

/-- The resolved sites of "A1:C1" on the notebook's tip rack, in range
order. -/
def tSites : List Coordinate :=
  [siteCoord tipRackOrigin (0, 0), siteCoord tipRackOrigin (1, 0),
   siteCoord tipRackOrigin (2, 0)]

/-- Whether a token is the all-zero sentinel. -/
def isZeroToken (s : String) : Bool := s.data.all (fun c => c == digitChar 0)

/-- The x sub-unit value of every tip-rack column-1 site. -/
theorem tenths_tip_x : ∀ i : Nat, tenths ((siteCoord tipRackOrigin (i, 0)).x) = 1629 := by
  intro i
  norm_num [siteCoord, tipRackOrigin, sitePitch, tenths, roundHalfUp]

/-- The `xp` tokens of the notebook's 3-tip pick-up: three active
tokens and one zero sentinel. -/
theorem xpTokens_tiprack :
    padTokens 5 (tSites.map (fun c => xTok c.x))
      = [("01629"), ("01629"), ("01629"), ("00000")] := by
  simp only [tSites, List.map_cons, List.map_nil, xTok, tenths_tip_x, padTokens]
  decide

/-- C3 counterexample: not every per-channel field is padded to the
fixed slot frame — in the logged aspirate command the `av` field
carries one token per active channel (3) while `tm` carries one token
per slot of the 4-slot frame. -/
theorem C3_counterexample_av_not_slot_framed :
    ((encodeAspirate 6 aSites [100, 50, 200]).fieldTokens ("av")).length = 3
    ∧ ((encodeAspirate 6 aSites [100, 50, 200]).fieldTokens ("tm")).length = slotFrame
    ∧ (3 : Nat) ≠ slotFrame := by
  refine ⟨?_, ?_, by decide⟩
  · simp [encodeAspirate, Command.fieldTokens]
  · simp [encodeAspirate, Command.fieldTokens, tmTokens]

/-- C3 amended: the slot-framed fields (`tm`, and the channel-position
fields `xp`/`yp`) carry exactly one token per slot of the fixed slot
frame, inactive slots filled with the all-zero sentinel of the field
width, while per-active-channel fields such as `av` carry exactly one
token per active channel; a pick-up of 3 tips at A1:C1 yields a
pick-up command with exactly 3 non-zero channel-position tokens, the
remaining slot token being zero. -/
theorem C3_amended_field_framing :
    (∀ (idN : Nat) (sites : List Coordinate) (vols : List ℚ),
        ((encodeAspirate idN sites vols).fieldTokens ("tm")).length = slotFrame)
    ∧ (∀ (idN : Nat) (sites : List Coordinate) (vols : List ℚ),
        ((encodeAspirate idN sites vols).fieldTokens ("av")).length = vols.length)
    ∧ (∀ (idN : Nat) (sites : List Coordinate), sites.length ≤ slotFrame →
        ((encodeTipPickUp idN sites).fieldTokens ("xp")).length = slotFrame)
    ∧ (encodeTipPickUp 5 tSites).fieldTokens ("xp")
        = [("01629"), ("01629"), ("01629"), ("00000")]
    ∧ (((encodeTipPickUp 5 tSites).fieldTokens ("xp")).filter
        (fun t => ! isZeroToken t)).length = 3 := by
  have hxp : (encodeTipPickUp 5 tSites).fieldTokens ("xp")
      = [("01629"), ("01629"), ("01629"), ("00000")] := by
    simp only [encodeTipPickUp, Command.fieldTokens]
    simp [xpTokens_tiprack]
  refine ⟨?_, ?_, ?_, hxp, ?_⟩
  · intro idN sites vols
    simp [encodeAspirate, Command.fieldTokens, tmTokens]
  · intro idN sites vols
    simp [encodeAspirate, Command.fieldTokens]
  · intro idN sites h
    simp only [encodeTipPickUp, Command.fieldTokens]
    simp [padTokens]
    omega
  · rw [hxp]
    decide

/-- Witness for the slot-frame conjunct of the amended C3, at the
notebook's 3-tip pick-up. -/
theorem C3_amended_field_framing_witness :
    ((encodeTipPickUp 5 tSites).fieldTokens ("xp")).length = slotFrame :=
  C3_amended_field_framing.2.2.1 5 tSites (by simp [tSites, slotFrame])

/-- Every successfully decoded response echoes the first ten
characters of the raw response string as its header echo. -/
theorem decode_echo (s : String) (r : Response) (h : decode s = some r) :
    r.echo = String.mk (s.data.take 10) := by
  simp only [decode] at h
  split at h
  · exact absurd h (by simp)
  · split at h
    · simp only [Option.some.injEq] at h
      rw [← h]
    · exact absurd h (by simp)

/-- C4 counterexample: the `er` field does not contain one two-digit
code per channel slot — the logged response to the 3-active-channel
aspirate command `C0ASid0006` (4-slot frame) carries exactly two
codes. -/
theorem C4_counterexample_er_not_per_slot :
    (decode respAS).map (fun r => r.erCodes.length) = some 2
    ∧ ((encodeAspirate 6 aSites [100, 50, 200]).fieldTokens ("tm")).length = slotFrame
    ∧ (2 : Nat) ≠ slotFrame ∧ (2 : Nat) ≠ 3 := by
  refine ⟨by decide, ?_, by decide, by decide⟩
  simp [encodeAspirate, Command.fieldTokens, tmTokens]

/-- C4 amended: every decoded response starts with an echo of the sent
command's module+command+id (the logged aspirate response echoes the
header of `C0ASid0006`); the `er` field is a "/"-separated sequence of
two-digit codes with "00" meaning no error (two codes in every logged
response, regardless of the 3 active channels / 4-slot frame); and a
missing response or one whose echoed id does not match the outstanding
command is surfaced as a `ProtocolError`, not silently dropped. -/
theorem C4_amended_response_echo_and_correlation :
    (∀ (s : String) (r : Response), decode s = some r → r.echo = String.mk (s.data.take 10))
    ∧ (decode respAS).map (fun r => r.echo)
        = some ((encodeAspirate 6 aSites [100, 50, 200]).header)
    ∧ (decode respAS).map (fun r => r.erCodes) = some [("00"), ("00")]
    ∧ (decode respTR).map (fun r => r.erCodes) = some [("00"), ("00")]
    ∧ (∀ hdr : String, correlate hdr none = ProtoResult.ProtocolError)
    ∧ (∀ (hdr s : String) (r : Response), decode s = some r → r.echo ≠ hdr →
        correlate hdr (some s) = ProtoResult.ProtocolError) := by
  refine ⟨decode_echo, ?_, by decide, by decide, fun hdr => rfl, ?_⟩
  · simp only [encodeAspirate, Command.header]
    decide
  · intro hdr s r h hne
    simp only [correlate, h]
    simp [hne]

/-- Witness for the amended C4 at the logged strings: the echo rule at
the aspirate response, and a correlation mismatch (the tip pick-up
header against the aspirate response) surfacing as `ProtocolError`. -/
theorem C4_amended_response_echo_and_correlation_witness :
    (⟨"C0ASid0006", [("00"), ("00")], ""⟩ : Response).echo
        = String.mk ((respAS).data.take 10)
    ∧ correlate ("C0TPid0005") (some respAS) = ProtoResult.ProtocolError :=
  ⟨C4_amended_response_echo_and_correlation.1 respAS
      ⟨"C0ASid0006", [("00"), ("00")], ""⟩ (by decide),
   C4_amended_response_echo_and_correlation.2.2.2.2.2 ("C0TPid0005") respAS
      ⟨"C0ASid0006", [("00"), ("00")], ""⟩ (by decide) (by decide)⟩

/-- `natDigits` always produces exactly the requested width. -/
theorem natDigits_length (w : Nat) : ∀ n : Nat, (natDigits w n).length = w := by
  induction w with
  | zero => intro n; rfl
  | succ w ih =>
    intro n
    simp [natDigits, ih]

/-- C5: every encoded command carries a 4-digit zero-padded sequence-id
token that depends only on the raw id modulo 10000, and the raw
sequence ids of a session's consecutively issued commands strictly
increase; the notebook session's commands carry ids 0004 through
0010. -/
theorem C5_session_ids_increase :
    (∀ n : Nat, (idToken n).length = 4)
    ∧ (∀ n : Nat, idToken n = idToken (n % 10000))
    ∧ (∀ n0 c : Nat, List.Pairwise (fun a b => a < b) (sessionIds n0 c))
    ∧ (sessionIds 4 7).map idToken
        = [("0004"), ("0005"), ("0006"), ("0007"), ("0008"), ("0009"), ("0010")] := by
  refine ⟨?_, ?_, ?_, by decide⟩
  · intro n
    simp [idToken, padNum, natDigits_length]
  · intro n
    simp [idToken, Nat.mod_mod_of_dvd]
  · intro n0 c
    simp only [sessionIds, List.pairwise_map]
    exact (List.pairwise_lt_range c).imp (fun h => by omega)

/-- Coordinates are equal when their three components are. -/
theorem coordEq {a b : Coordinate} (hx : a.x = b.x) (hy : a.y = b.y) (hz : a.z = b.z) :
    a = b := by
  cases a
  cases b
  simp_all

/-- C6: for every carrier assigned to a rail, the resolver maps the
rail index to x by the fixed linear function (rail 3 ⇒ x = 145.0 mm,
rail 15 ⇒ x = 415.0 mm), and moving the rail index by Δ shifts the
x-coordinate of the carrier and of all its children by Δ times the
fixed rail pitch, leaving y and z unchanged; the notebook's tip
carrier at rail 3 and plate carrier at rail 15 place `tips_01` and
`plate_01` at their logged absolute coordinates. -/
theorem C6_rail_linear_translation :
    railToX 3 = 145
    ∧ railToX 15 = 415
    ∧ (∀ (rail d : ℤ) (cy cz : ℚ),
        carrierPos (rail + d) cy cz
          = ⟨(carrierPos rail cy cz).x + railPitch * d, cy, cz⟩)
    ∧ (∀ (rail d : ℤ) (cy cz : ℚ) (children : List Slotted),
        carrierChildrenAbs (rail + d) cy cz children
          = (carrierChildrenAbs rail cy cz children).map
              (fun p => (p.1, ⟨p.2.x + railPitch * d, p.2.y, p.2.z⟩)))
    ∧ addC (carrierPos 3 63 100) ⟨179 / 10, 414 / 5, 629 / 20⟩ = tipRackOrigin
    ∧ addC (carrierPos 15 63 100) ⟨18, 83, 1743 / 20⟩ = plateOrigin := by
  have hshift : ∀ (rail d : ℤ) (cy cz : ℚ),
      carrierPos (rail + d) cy cz
        = ⟨(carrierPos rail cy cz).x + railPitch * d, cy, cz⟩ := by
    intro rail d cy cz
    simp only [carrierPos, railToX, Coordinate.mk.injEq, and_true, eq_self_iff_true]
    push_cast
    ring
  refine ⟨?_, ?_, hshift, ?_, ?_, ?_⟩
  · norm_num [railToX, railPitch]
  · norm_num [railToX, railPitch]
  · intro rail d cy cz children
    simp only [carrierChildrenAbs, List.map_map]
    refine List.map_congr_left ?_
    intro c _
    have h2 : addC (carrierPos (rail + d) cy cz) c.off
        = ⟨(addC (carrierPos rail cy cz) c.off).x + railPitch * d,
           (addC (carrierPos rail cy cz) c.off).y,
           (addC (carrierPos rail cy cz) c.off).z⟩ := by
      refine coordEq ?_ ?_ ?_
      · simp only [addC, carrierPos, railToX]
        push_cast
        ring
      · simp [addC, carrierPos]
      · simp [addC, carrierPos]
    simp only [Function.comp]
    rw [h2]
  · simp only [addC, carrierPos, railToX, railPitch, tipRackOrigin, Coordinate.mk.injEq]
    norm_num
  · simp only [addC, carrierPos, railToX, railPitch, plateOrigin, Coordinate.mk.injEq]
    norm_num

/-- The y sub-unit values of the plate rows A, B, C. -/
theorem tenths_plate_yA : tenths ((siteCoord plateOrigin (0, 0)).y) = 1460 := by
  norm_num [siteCoord, plateOrigin, sitePitch, tenths, roundHalfUp]

/-- The y sub-unit value of plate row B. -/
theorem tenths_plate_yB : tenths ((siteCoord plateOrigin (1, 0)).y) = 1370 := by
  norm_num [siteCoord, plateOrigin, sitePitch, tenths, roundHalfUp]

/-- The y sub-unit value of plate row C. -/
theorem tenths_plate_yC : tenths ((siteCoord plateOrigin (2, 0)).y) = 1280 := by
  norm_num [siteCoord, plateOrigin, sitePitch, tenths, roundHalfUp]

/-- The `yp` tokens of the notebook's A1:C1 plate sites. -/
theorem ypTokens_plate_A1C1 :
    padTokens 4 (aSites.map (fun c => yTok c.y))
      = [("1460"), ("1370"), ("1280"), ("0000")] := by
  simp only [aSites, List.map_cons, List.map_nil, yTok, tenths_plate_yA, tenths_plate_yB,
    tenths_plate_yC, padTokens]
  decide

/-- C7: resolving "A1:C1" always yields the same fixed column-then-row
order (consecutive column-major indices 0, 1, 2), the per-channel `yp`
coordinates encoded from it are identical across repeated resolutions
(aspirate and dispense commands built from the same range), and
channel-assignment index i always corresponds to Site i of that
order. -/
theorem C7_range_order_and_channel_alignment :
    expandRange ("A1:C1") = some [(0, 0), (1, 0), (2, 0)]
    ∧ (expandRange ("A1:C1")).map (fun l => l.map wellIndex) = some [0, 1, 2]
    ∧ (∀ (vols : List ℚ) (idA idD : Nat),
        (encodeAspirate idA aSites vols).fieldTokens ("yp")
          = (encodeDispense idD aSites vols).fieldTokens ("yp"))
    ∧ (encodeAspirate 6 aSites [100, 50, 200]).fieldTokens ("yp")
        = [("1460"), ("1370"), ("1280"), ("0000")]
    ∧ (∀ (idN : Nat) (sites : List Coordinate) (vols : List ℚ) (i : Nat) (c : Coordinate),
        sites[i]? = some c →
        ((encodeAspirate idN sites vols).fieldTokens ("yp"))[i]? = some (yTok c.y)) := by
  refine ⟨by decide, by decide, ?_, ?_, ?_⟩
  · intro vols idA idD
    simp [encodeAspirate, encodeDispense, Command.fieldTokens]
  · simp [encodeAspirate, Command.fieldTokens, ypTokens_plate_A1C1]
  · intro idN sites vols i c h
    have hi : i < sites.length := by
      rcases List.getElem?_eq_some.mp h with ⟨h', _⟩
      exact h'
    have hf : (encodeAspirate idN sites vols).fieldTokens ("yp")
        = padTokens 4 (sites.map (fun c => yTok c.y)) := by
      simp [encodeAspirate, Command.fieldTokens]
    rw [hf, padTokens, List.getElem?_append_left (by simpa using hi), List.getElem?_map, h]
    rfl

/-- Witness for the alignment conjunct of C7, at channel 2 of the
notebook's aspirate command. -/
theorem C7_range_order_and_channel_alignment_witness :
    ((encodeAspirate 6 aSites [100, 50, 200]).fieldTokens ("yp"))[1]?
      = some (yTok ((siteCoord plateOrigin (1, 0)).y)) :=
  C7_range_order_and_channel_alignment.2.2.2.2 6 aSites [100, 50, 200] 1
    (siteCoord plateOrigin (1, 0)) rfl

/-- C8: a successful pick-up followed by a successful drop returns a
channel to `empty`; a successful aspirate(v) followed by a successful
dispense(v) returns the channel's held volume to exactly its prior
value; and after any successful dispense the held volume equals the
previous held volume minus the dispensed amount. -/
theorem C8_channel_round_trips :
    (∀ s s1 : ChannelState, pickUpCh s = Except.ok s1 →
        dropCh s1 = Except.ok ChannelState.empty)
    ∧ (∀ (v : ℚ) (s s1 s2 : ChannelState),
        aspirateCh v s = Except.ok s1 → dispenseCh v s1 = Except.ok s2 →
        heldVolume s2 = heldVolume s)
    ∧ (∀ (v : ℚ) (s s1 : ChannelState),
        dispenseCh v s = Except.ok s1 → heldVolume s1 = heldVolume s - v) := by
  have hdisp : ∀ (v : ℚ) (s s1 : ChannelState),
      dispenseCh v s = Except.ok s1 → heldVolume s1 = heldVolume s - v := by
    intro v s s1 h
    cases s with
    | empty => simp [dispenseCh] at h
    | tip_attached => simp [dispenseCh] at h
    | tip_attached_with_liquid w =>
      simp only [dispenseCh] at h
      split at h
      · simp only [Except.ok.injEq] at h
        rw [← h]
        simp [heldVolume]
      · simp at h
  refine ⟨?_, ?_, hdisp⟩
  · intro s s1 h
    cases s with
    | empty =>
      simp only [pickUpCh, Except.ok.injEq] at h
      rw [← h]
      rfl
    | tip_attached => simp [pickUpCh] at h
    | tip_attached_with_liquid w => simp [pickUpCh] at h
  · intro v s s1 s2 h1 h2
    have h3 := hdisp v s1 s2 h2
    cases s with
    | empty => simp [aspirateCh] at h1
    | tip_attached =>
      simp only [aspirateCh] at h1
      split at h1
      · simp only [Except.ok.injEq] at h1
        rw [← h1] at h3
        rw [h3]
        simp [heldVolume]
      · simp at h1
    | tip_attached_with_liquid w =>
      simp only [aspirateCh] at h1
      split at h1
      · simp only [Except.ok.injEq] at h1
        rw [← h1] at h3
        rw [h3]
        simp [heldVolume]
      · simp at h1

/-- Witness for C8 at v = 100 µL starting from a bare tip: pick-up
then drop, aspirate then dispense, and the dispense decrement. -/
theorem C8_channel_round_trips_witness :
    dropCh ChannelState.tip_attached = Except.ok ChannelState.empty
    ∧ heldVolume (ChannelState.tip_attached_with_liquid (100 - 100))
        = heldVolume ChannelState.tip_attached
    ∧ heldVolume (ChannelState.tip_attached_with_liquid (100 - 100))
        = heldVolume (ChannelState.tip_attached_with_liquid 100) - 100 :=
  ⟨C8_channel_round_trips.1 ChannelState.empty ChannelState.tip_attached rfl,
   C8_channel_round_trips.2.1 100 ChannelState.tip_attached
     (ChannelState.tip_attached_with_liquid 100)
     (ChannelState.tip_attached_with_liquid (100 - 100))
     (by norm_num [aspirateCh, tipCapacity]) (by norm_num [dispenseCh]),
   C8_channel_round_trips.2.2 100 (ChannelState.tip_attached_with_liquid 100)
     (ChannelState.tip_attached_with_liquid (100 - 100)) (by norm_num [dispenseCh])⟩

/-- C9: resolver/tracker validation failures are raised before any
bytes are sent and leave every channel's tracked state (and the sent
log) unchanged; and an aspirate request whose volume exceeds the
channel's rated capacity always fails with `CapacityError` on any
tip-holding channel. -/
theorem C9_validation_failures_touch_nothing :
    (∀ (s : Session) (op : Op) (e : OpErr),
        validateOp s op = Except.error e → runOp s op = (s, some e))
    ∧ (∀ (v : ℚ) (st : ChannelState), 0 ≤ heldVolume st →
        st ≠ ChannelState.empty → tipCapacity < v →
        aspirateCh v st = Except.error OpErr.CapacityError) := by
  constructor
  · intro s op e h
    simp [runOp, h]
  · intro v st h0 hne hcap
    cases st with
    | empty => exact absurd rfl hne
    | tip_attached =>
      simp only [aspirateCh, ite_eq_right_iff]
      intro hc
      exact absurd hc.2 (by linarith)
    | tip_attached_with_liquid w =>
      simp only [heldVolume] at h0
      simp only [aspirateCh, ite_eq_right_iff]
      intro hc
      have : w + v ≤ tipCapacity := hc.2
      linarith

/-- Witness for C9: an over-capacity aspirate (2000 µL on 1000 µL
tips) in the notebook's session fails with `CapacityError`, leaving
the session (channel states and sent log) unchanged. -/
theorem C9_validation_failures_touch_nothing_witness :
    runOp sess0 (Op.aspirate ("A1:C1") [2000, 50, 200])
      = (sess0, some OpErr.CapacityError)
    ∧ aspirateCh 2000 ChannelState.tip_attached = Except.error OpErr.CapacityError :=
  ⟨C9_validation_failures_touch_nothing.1 sess0 (Op.aspirate ("A1:C1") [2000, 50, 200])
      OpErr.CapacityError
      (by norm_num [validateOp, sess0, chanInit, resolve_plate_A1C1, zipExcept, aspirateCh,
        tipCapacity, aSites]),
   C9_validation_failures_touch_nothing.2 2000 ChannelState.tip_attached
      (by norm_num [heldVolume]) (by simp) (by norm_num [tipCapacity])⟩

/-- C10: the per-channel volume tokens are identical between an
aspirate command's `av` field and a dispense command's `dv` field for
the same logical volumes — volume-to-sub-unit conversion does not
depend on the operation kind (concretely, 01072 00551 02110 for
[100.0, 50.0, 200.0] µL in both directions). -/
theorem C10_volume_tokens_operation_independent :
    (∀ (idA idD : Nat) (sitesA sitesD : List Coordinate) (vols : List ℚ),
        (encodeAspirate idA sitesA vols).fieldTokens ("av")
          = (encodeDispense idD sitesD vols).fieldTokens ("dv"))
    ∧ (encodeAspirate 6 aSites [100, 50, 200]).fieldTokens ("av")
        = (encodeDispense 7 dSites [100, 50, 200]).fieldTokens ("dv")
    ∧ (encodeDispense 7 dSites [100, 50, 200]).fieldTokens ("dv")
        = [("01072"), ("00551"), ("02110")] := by
  have h : ∀ (idA idD : Nat) (sitesA sitesD : List Coordinate) (vols : List ℚ),
      (encodeAspirate idA sitesA vols).fieldTokens ("av")
        = (encodeDispense idD sitesD vols).fieldTokens ("dv") := by
    intro idA idD sitesA sitesD vols
    simp [encodeAspirate, encodeDispense, Command.fieldTokens]
  refine ⟨h, h 6 7 aSites dSites [100, 50, 200], ?_⟩
  simp [encodeDispense, Command.fieldTokens, volumeToken_100, volumeToken_50, volumeToken_200]

end StarProto
